import Mathlib

/-!
Verification of the Loan & Reservation Lifecycle Engine of a library
management system (Go, Firestore-backed).

The embedding below is a shallow, sequential model of the Go source:

* Firestore collections become lists of records held in a `DB` structure;
  a document write `Doc(id).Set(x)` becomes replacement of the record(s)
  whose `id` field equals the key.
* `time.Time` values become `Int` timestamps measured in hours, so that
  `time.Since(t).Hours()` is plain subtraction, `AddDate(0,0,n)` is
  `+ 24*n`, and `a.After(b)` is `b < a`.  The `time.Time{}` zero value is
  the integer `0`.
* Each client/handler operation takes the current `DB` and the current
  time `now` and returns the new `DB` together with the outcome.  Mutating
  client operations return `DB × Option String` (`none` = success,
  `some e` = the Go error, with the store as it was at the failure
  point); handler operations return `DB × Except String String`
  (`Except.ok` = the success response payload, `Except.error` = the
  error response).
* Randomly generated pickup codes and fresh Firestore document ids are
  nondeterministic inputs of the Go code; they are passed as explicit
  parameters (`code`, `newId`).
* `FineAmount` is a Go `float64`, but every value the engine ever stores
  in it is a whole number of daily 1-unit rates, so it is modeled as
  `Int`.
* Display-only catalog fields that never enter the lifecycle logic
  (ISBN, author, publisher, category, description, shelf location, cover
  URL, phone, e-mail, role, notes, total fines) are not modeled; the
  denormalized `bookTitle`/`userName` copies that the workflows do write
  are kept.

Two workflows contain a document-store race window that the spec
discusses: between the `GetNextReservation` queue snapshot and the
subsequent `MarkReservationReady`/availability write, another request may
commit writes.  The `...W` variants of `ReturnLoan`, `BorrowBook` and
`CancelReservation` expose that window as an explicit `interfere : DB → DB`
parameter (the sequential functions instantiate it with `id`).
-/

/-- Status of a loan (`models.LoanStatus`).  The `overdue` constant exists
in the Go source but is never assigned by the lifecycle engine. -/
inductive LoanStatus where
  | pendingPickup
  | active
  | returned
  | overdue
  deriving DecidableEq, Repr

/-- Status of a reservation (`models.ReservationStatus`). -/
inductive ReservationStatus where
  | pending
  | ready
  | completed
  | cancelled
  | expired
  deriving DecidableEq, Repr

/-- A book record (`models.Book`), restricted to the lifecycle-relevant
fields. -/
structure Book where
  id : String
  title : String
  totalCopies : Int
  availableCopies : Int
  createdAt : Int
  updatedAt : Int
  deriving DecidableEq, Repr

/-- A loan record (`models.Loan`). -/
structure Loan where
  id : String
  bookId : String
  userId : String
  bookTitle : String
  userName : String
  pickupCode : String
  status : LoanStatus
  loanDate : Int
  dueDate : Int
  returnDate : Option Int
  fineAmount : Int
  createdAt : Int
  updatedAt : Int
  deriving DecidableEq, Repr

/-- A reservation record (`models.Reservation`). -/
structure Reservation where
  id : String
  bookId : String
  userId : String
  bookTitle : String
  userName : String
  status : ReservationStatus
  reservationDate : Int
  expiryDate : Int
  notifiedDate : Option Int
  createdAt : Int
  updatedAt : Int
  deriving DecidableEq, Repr

/-- A user record (`models.User`), restricted to the lifecycle-relevant
fields. -/
structure User where
  id : String
  firstName : String
  lastName : String
  isActive : Bool
  maxLoans : Int
  currentLoans : Int
  createdAt : Int
  updatedAt : Int
  deriving DecidableEq, Repr

/-- The Firestore document store: one list per collection. -/
structure DB where
  books : List Book
  loans : List Loan
  reservations : List Reservation
  users : List User
  deriving DecidableEq, Repr

/-- `Book.IsAvailable`: the book has at least one available copy. -/
def Book.isAvailable (b : Book) : Bool :=
  b.availableCopies > 0

/-- `Book.DecrementAvailableCopies`: decrement, guarded at zero. -/
def Book.decrementAvailableCopies (b : Book) : Book :=
  if b.availableCopies > 0 then { b with availableCopies := b.availableCopies - 1 } else b

/-- `Book.IncrementAvailableCopies`: increment, clamped at `totalCopies`. -/
def Book.incrementAvailableCopies (b : Book) : Book :=
  if b.availableCopies < b.totalCopies then { b with availableCopies := b.availableCopies + 1 } else b

/-- `User.CanBorrow`: active and below the loan limit. -/
def User.canBorrow (u : User) : Bool :=
  u.isActive && u.currentLoans < u.maxLoans

/-- `User.FullName`: first name, space, last name. -/
def User.fullName (u : User) : String :=
  u.firstName ++ " " ++ u.lastName

/-- `Loan.IsOverdue`: active and past the due date. -/
def Loan.isOverdue (l : Loan) (now : Int) : Bool :=
  decide (l.status = LoanStatus.active) && decide (now > l.dueDate)

/-- `Loan.CalculateFine`: 1 unit per full day overdue.  `int(hours/24)`
truncates toward zero, which is `Int.tdiv` (the operand is positive in
every overdue case). -/
def Loan.calculateFine (l : Loan) (now : Int) : Int :=
  if !(l.isOverdue now) then 0
  else
    let daysOverdue := Int.tdiv (now - l.dueDate) 24
    if daysOverdue < 0 then 0 else daysOverdue * 1

/-- `Reservation.IsExpired`: ready and past the expiry date. -/
def Reservation.isExpired (r : Reservation) (now : Int) : Bool :=
  decide (r.status = ReservationStatus.ready) && decide (now > r.expiryDate)

/-- `Reservation.CanBeCompleted`: ready and not expired. -/
def Reservation.canBeCompleted (r : Reservation) (now : Int) : Bool :=
  decide (r.status = ReservationStatus.ready) && !(r.isExpired now)

/-- `Client.GetBook`: lookup by id, empty id rejected. -/
def Client.GetBook (db : DB) (id : String) : Except String Book :=
  if id = "" then .error "ID książki nie może być puste"
  else
    match db.books.find? (fun b => decide (b.id = id)) with
    | none => .error "błąd pobierania książki"
    | some b => .ok b

/-- `Client.GetLoan`: lookup by id, empty id rejected. -/
def Client.GetLoan (db : DB) (id : String) : Except String Loan :=
  if id = "" then .error "ID wypożyczenia nie może być puste"
  else
    match db.loans.find? (fun l => decide (l.id = id)) with
    | none => .error "błąd pobierania wypożyczenia"
    | some l => .ok l

/-- `Client.GetReservation`: lookup by id, empty id rejected. -/
def Client.GetReservation (db : DB) (id : String) : Except String Reservation :=
  if id = "" then .error "ID rezerwacji nie może być puste"
  else
    match db.reservations.find? (fun r => decide (r.id = id)) with
    | none => .error "błąd pobierania rezerwacji"
    | some r => .ok r

/-- `Client.GetUser`: lookup by id, empty id rejected. -/
def Client.GetUser (db : DB) (id : String) : Except String User :=
  if id = "" then .error "ID użytkownika nie może być puste"
  else
    match db.users.find? (fun u => decide (u.id = id)) with
    | none => .error "błąd pobierania użytkownika"
    | some u => .ok u

/-- `Client.UpdateBook`: existence check, then `Doc(id).Set` with
`UpdatedAt = now` and `ID = id`. -/
def Client.UpdateBook (db : DB) (now : Int) (id : String) (book : Book) : DB × Option String :=
  if id = "" then (db, some "ID książki nie może być puste")
  else
    match Client.GetBook db id with
    | .error e => (db, some ("książka nie istnieje: " ++ e))
    | .ok _ =>
      let b := { book with updatedAt := now, id := id }
      ({ db with books := db.books.map (fun x => if x.id = id then b else x) }, none)

/-- `Client.UpdateLoan`: existence check, then `Doc(id).Set` with
`UpdatedAt = now` and `ID = id`. -/
def Client.UpdateLoan (db : DB) (now : Int) (id : String) (loan : Loan) : DB × Option String :=
  if id = "" then (db, some "ID wypożyczenia nie może być puste")
  else
    match Client.GetLoan db id with
    | .error e => (db, some ("wypożyczenie nie istnieje: " ++ e))
    | .ok _ =>
      let l := { loan with updatedAt := now, id := id }
      ({ db with loans := db.loans.map (fun x => if x.id = id then l else x) }, none)

/-- `Client.UpdateReservation`: existence check, then `Doc(id).Set` with
`UpdatedAt = now` and `ID = id`. -/
def Client.UpdateReservation (db : DB) (now : Int) (id : String) (r : Reservation) :
    DB × Option String :=
  if id = "" then (db, some "ID rezerwacji nie może być puste")
  else
    match Client.GetReservation db id with
    | .error e => (db, some ("rezerwacja nie istnieje: " ++ e))
    | .ok _ =>
      let r' := { r with updatedAt := now, id := id }
      ({ db with reservations := db.reservations.map (fun x => if x.id = id then r' else x) },
       none)

/-- `Client.UpdateUser`: existence check, then `Doc(id).Set` with
`UpdatedAt = now` and `ID = id`. -/
def Client.UpdateUser (db : DB) (now : Int) (id : String) (user : User) : DB × Option String :=
  if id = "" then (db, some "ID użytkownika nie może być puste")
  else
    match Client.GetUser db id with
    | .error e => (db, some ("użytkownik nie istnieje: " ++ e))
    | .ok _ =>
      let u := { user with updatedAt := now, id := id }
      ({ db with users := db.users.map (fun x => if x.id = id then u else x) }, none)

/-- `Client.CreateLoan`: validates the ids, stamps the defaults
(`status = pending_pickup`, `loanDate = now`, zero `dueDate`, fresh
pickup code) and stores the new document.  The fresh document id and the
random pickup code are nondeterministic inputs, passed as `newId` and
`code`. -/
def Client.CreateLoan (db : DB) (now : Int) (newId code : String)
    (bookId userId bookTitle userName : String) : Except String (DB × Loan) :=
  if bookId = "" || userId = "" then .error "ID książki i użytkownika są wymagane"
  else
    let loan : Loan :=
      { id := newId, bookId := bookId, userId := userId, bookTitle := bookTitle,
        userName := userName, pickupCode := code, status := LoanStatus.pendingPickup,
        loanDate := now, dueDate := 0, returnDate := none, fineAmount := 0,
        createdAt := now, updatedAt := now }
    .ok ({ db with loans := db.loans ++ [loan] }, loan)

/-- `Client.CreateReservation`: validates the ids, stamps the defaults
(`status = pending`, `reservationDate = now`, 3-day default expiry when
the caller passed the zero time) and stores the new document. -/
def Client.CreateReservation (db : DB) (now : Int) (newId : String)
    (bookId userId bookTitle userName : String) (expiryDate : Int) :
    Except String (DB × Reservation) :=
  if bookId = "" || userId = "" then .error "ID książki i użytkownika są wymagane"
  else
    let expiry := if expiryDate = 0 then now + 24 * 3 else expiryDate
    let r : Reservation :=
      { id := newId, bookId := bookId, userId := userId, bookTitle := bookTitle,
        userName := userName, status := ReservationStatus.pending, reservationDate := now,
        expiryDate := expiry, notifiedDate := none, createdAt := now, updatedAt := now }
    .ok ({ db with reservations := db.reservations ++ [r] }, r)

/-- Loop body of `Client.GetNextReservation`: keep the current candidate
unless the next reservation is strictly older by `CreatedAt`. -/
def pickStep (oldest : Option Reservation) (r : Reservation) : Option Reservation :=
  match oldest with
  | none => some r
  | some o => if r.createdAt < o.createdAt then some r else some o

/-- Fold of `Client.GetNextReservation`: the first reservation in
collection order whose `CreatedAt` is strictly smallest. -/
def pickOldest (rs : List Reservation) : Option Reservation :=
  rs.foldl pickStep none

/-- `Client.GetNextReservation`: all reservations of the book are read,
those with `status == pending` are kept, and the oldest one by
`CreatedAt` is returned; `none` (with no error) when the book has no
pending reservation. -/
def Client.GetNextReservation (db : DB) (bookID : String) :
    Except String (Option Reservation) :=
  if bookID = "" then .error "ID książki nie może być puste"
  else
    let pending := db.reservations.filter (fun r =>
      decide (r.bookId = bookID) && decide (r.status = ReservationStatus.pending))
    .ok (pickOldest pending)

/-- `Client.GetUserReservations`: the reservations of one user (the Go
date ordering is irrelevant to every caller modeled here). -/
def Client.GetUserReservations (db : DB) (userID : String) :
    Except String (List Reservation) :=
  if userID = "" then .error "ID użytkownika nie może być puste"
  else .ok (db.reservations.filter (fun r => decide (r.userId = userID)))

/-- `Client.MarkReservationReady`: guard `status == pending`, then set
`ready`, stamp `NotifiedDate` and a 3-day expiry window. -/
def Client.MarkReservationReady (db : DB) (now : Int) (reservationID : String) :
    DB × Option String :=
  match Client.GetReservation db reservationID with
  | .error e => (db, some e)
  | .ok r =>
    if r.status ≠ ReservationStatus.pending then
      (db, some "rezerwacja nie jest w stanie oczekiwania")
    else
      Client.UpdateReservation db now reservationID
        { r with status := ReservationStatus.ready, notifiedDate := some now,
                 expiryDate := now + 24 * 3, updatedAt := now }

/-- `Client.CompleteReservation`: guard `CanBeCompleted`, then set
`completed`. -/
def Client.CompleteReservation (db : DB) (now : Int) (reservationID : String) :
    DB × Option String :=
  match Client.GetReservation db reservationID with
  | .error e => (db, some e)
  | .ok r =>
    if !(r.canBeCompleted now) then (db, some "rezerwacja nie może być zrealizowana")
    else
      Client.UpdateReservation db now reservationID
        { r with status := ReservationStatus.completed, updatedAt := now }

/-- `Client.CancelReservation`: guard `status != completed`, then set
`cancelled`. -/
def Client.CancelReservation (db : DB) (now : Int) (reservationID : String) :
    DB × Option String :=
  match Client.GetReservation db reservationID with
  | .error e => (db, some e)
  | .ok r =>
    if r.status = ReservationStatus.completed then
      (db, some "nie można anulować zrealizowanej rezerwacji")
    else
      Client.UpdateReservation db now reservationID
        { r with status := ReservationStatus.cancelled, updatedAt := now }

/-- `Client.ConfirmPickup`: find the unique loan with this pickup code
still in `pending_pickup`, set it `active` with a 14-day due date. -/
def Client.ConfirmPickup (db : DB) (now : Int) (pickupCode : String) : DB × Option String :=
  if pickupCode = "" then (db, some "kod odbioru nie może być pusty")
  else
    match db.loans.find? (fun l =>
        decide (l.pickupCode = pickupCode) && decide (l.status = LoanStatus.pendingPickup)) with
    | none => (db, some "nie znaleziono wypożyczenia z kodem")
    | some loan =>
      let l := { loan with
        status := LoanStatus.active, dueDate := now + 24 * 14, updatedAt := now }
      ({ db with loans := db.loans.map (fun x => if x.id = loan.id then l else x) }, none)

/-- `Client.UpdateBookAvailability`: single-document transaction; on
increment the clamped `IncrementAvailableCopies`, on decrement a
`IsAvailable` guard followed by `DecrementAvailableCopies`. -/
def Client.UpdateBookAvailability (db : DB) (now : Int) (bookID : String) (increment : Bool) :
    DB × Option String :=
  match db.books.find? (fun b => decide (b.id = bookID)) with
  | none => (db, some "błąd pobierania książki")
  | some book =>
    if increment then
      let b := { (book.incrementAvailableCopies) with updatedAt := now }
      ({ db with books := db.books.map (fun x => if x.id = bookID then b else x) }, none)
    else
      if !book.isAvailable then (db, some "książka nie jest dostępna")
      else
        let b := { (book.decrementAvailableCopies) with updatedAt := now }
        ({ db with books := db.books.map (fun x => if x.id = bookID then b else x) }, none)

/-- `Client.UpdateUserLoansCount`: Firestore field increment of
`current_loans` by `±1`; fails only when the user document is missing. -/
def Client.UpdateUserLoansCount (db : DB) (now : Int) (userID : String) (increment : Bool) :
    DB × Option String :=
  match db.users.find? (fun u => decide (u.id = userID)) with
  | none => (db, some "błąd aktualizacji liczby wypożyczeń")
  | some u =>
    let delta : Int := if increment then 1 else -1
    let u' := { u with currentLoans := u.currentLoans + delta, updatedAt := now }
    ({ db with users := db.users.map (fun x => if x.id = userID then u' else x) }, none)

/-- Observer: the `availableCopies` of the book with this id. -/
def DB.bookAvail (db : DB) (bookID : String) : Option Int :=
  (db.books.find? (fun b => decide (b.id = bookID))).map (fun b => b.availableCopies)

/-- Observer: the status of the reservation with this id. -/
def DB.reservationStatus (db : DB) (reservationID : String) : Option ReservationStatus :=
  (db.reservations.find? (fun r => decide (r.id = reservationID))).map (fun r => r.status)

/-- Observer: the `currentLoans` of the user with this id. -/
def DB.userLoans (db : DB) (userID : String) : Option Int :=
  (db.users.find? (fun u => decide (u.id = userID))).map (fun u => u.currentLoans)

/-- Observer: the loan with this id. -/
def DB.loanById (db : DB) (loanID : String) : Option Loan :=
  db.loans.find? (fun l => decide (l.id = loanID))

/-- Tail of `Client.ReturnLoan` after the queue snapshot: either mark the
chosen reservation ready (an error there aborts the whole return), or
fetch the book and store it back with a raw, unclamped
`AvailableCopies++`. -/
def Client.returnQueueBranch (db : DB) (now : Int) (bookID : String)
    (next : Option Reservation) : DB × Option String :=
  match next with
  | some r =>
    match Client.MarkReservationReady db now r.id with
    | (db', none) => (db', none)
    | (db', some e) => (db', some ("błąd aktywacji rezerwacji: " ++ e))
  | none =>
    match Client.GetBook db bookID with
    | .error e => (db, some ("błąd pobierania książki: " ++ e))
    | .ok book =>
      Client.UpdateBook db now bookID
        { book with availableCopies := book.availableCopies + 1, updatedAt := now }

/-- The loan record stored by `Client.ReturnLoan`: `status = returned`,
`returnDate` set, then the fine branch — the `loan.IsOverdue()` check
runs *after* the status was already set to `returned`. -/
def returnedLoan (loan : Loan) (now : Int) : Loan :=
  let loan1 := { loan with
    returnDate := some now, status := LoanStatus.returned, updatedAt := now }
  if loan1.isOverdue now then { loan1 with fineAmount := loan1.calculateFine now }
  else loan1

/-- `Client.ReturnLoan`, with the race window between the
`GetNextReservation` snapshot and the subsequent store writes exposed as
`interfere` (sequential execution is `interfere = id`).  Steps, in source
order: load the loan and guard `status == active`; store the
`returnedLoan` record; decrement the user's loan counter when positive;
take the queue snapshot; then `returnQueueBranch`. -/
def Client.ReturnLoanW (interfere : DB → DB) (db : DB) (now : Int) (loanID : String) :
    DB × Option String :=
  match Client.GetLoan db loanID with
  | .error e => (db, some e)
  | .ok loan =>
    if loan.status ≠ LoanStatus.active then (db, some "wypożyczenie nie jest aktywne")
    else
      match Client.UpdateLoan db now loanID (returnedLoan loan now) with
      | (db1, some e) => (db1, some ("błąd aktualizacji wypożyczenia: " ++ e))
      | (db1, none) =>
        match Client.GetUser db1 loan.userId with
        | .error e => (db1, some ("błąd pobierania użytkownika: " ++ e))
        | .ok user =>
          match (if user.currentLoans > 0 then
              Client.UpdateUser db1 now loan.userId
                { user with currentLoans := user.currentLoans - 1, updatedAt := now }
            else (db1, none)) with
          | (db2, some e) =>
            (db2, some ("błąd aktualizacji licznika wypożyczeń użytkownika: " ++ e))
          | (db2, none) =>
            match Client.GetNextReservation db2 loan.bookId with
            | .error e => (db2, some ("błąd sprawdzania rezerwacji: " ++ e))
            | .ok next => Client.returnQueueBranch (interfere db2) now loan.bookId next

/-- `Client.ReturnLoan`: the sequential return workflow. -/
def Client.ReturnLoan (db : DB) (now : Int) (loanID : String) : DB × Option String :=
  Client.ReturnLoanW id db now loanID

/-- `BooksHandler.BorrowBook`, with the race window after `CreateLoan`
exposed as `interfere`.  Steps: load the session user and guard
`CanBorrow` (with the Go error-message selection); load the book and
guard `IsAvailable`; create the loan; then decrement availability and
increment the user's loan counter, both failures only logged; answer
with the pickup code. -/
def BooksHandler.BorrowBookW (interfere : DB → DB) (db : DB) (now : Int)
    (sessionUserId bookID newLoanId code : String) : DB × Except String String :=
  if bookID = "" then (db, .error "Brak ID książki")
  else
    match Client.GetUser db sessionUserId with
    | .error _ => (db, .error "Błąd pobierania danych użytkownika")
    | .ok user =>
      if !user.canBorrow then
        (db, .error
          (if user.currentLoans ≥ user.maxLoans then "Osiągnięto maksymalny limit wypożyczeń"
           else if !user.isActive then "Konto nieaktywne - skontaktuj się z biblioteką"
           else "Nie możesz wypożyczyć książki"))
      else
        match Client.GetBook db bookID with
        | .error _ => (db, .error "Książka nie została znaleziona")
        | .ok book =>
          if !book.isAvailable then (db, .error "Książka jest obecnie niedostępna")
          else
            match Client.CreateLoan db now newLoanId code bookID sessionUserId
                book.title user.fullName with
            | .error _ => (db, .error "Błąd wypożyczania książki")
            | .ok (db1, loan) =>
              let db2 := interfere db1
              let db3 := (Client.UpdateBookAvailability db2 now bookID false).1
              let db4 := (Client.UpdateUserLoansCount db3 now sessionUserId true).1
              (db4, .ok loan.pickupCode)

/-- `BooksHandler.BorrowBook`: the sequential borrow workflow. -/
def BooksHandler.BorrowBook (db : DB) (now : Int)
    (sessionUserId bookID newLoanId code : String) : DB × Except String String :=
  BooksHandler.BorrowBookW id db now sessionUserId bookID newLoanId code

/-- `BooksHandler.ReserveBook`: guard active account, reject a duplicate
`pending`/`ready` reservation of the same book by the same user (the
duplicate check is skipped when the reservation query itself fails),
then create a `pending` reservation with a 7-day placeholder expiry. -/
def BooksHandler.ReserveBook (db : DB) (now : Int)
    (sessionUserId bookID newId : String) : DB × Except String String :=
  if bookID = "" then (db, .error "Brak ID książki")
  else
    match Client.GetUser db sessionUserId with
    | .error _ => (db, .error "Błąd pobierania danych użytkownika")
    | .ok user =>
      if !user.isActive then (db, .error "Konto nieaktywne - skontaktuj się z biblioteką")
      else
        let dup :=
          match Client.GetUserReservations db sessionUserId with
          | .error _ => false
          | .ok rs => rs.any (fun res =>
              decide (res.bookId = bookID) &&
              (decide (res.status = ReservationStatus.pending) ||
               decide (res.status = ReservationStatus.ready)))
        if dup then (db, .error "Masz już aktywną rezerwację tej książki")
        else
          match Client.CreateReservation db now newId bookID sessionUserId "" ""
              (now + 24 * 7) with
          | .error _ => (db, .error "Błąd rezerwacji książki")
          | .ok (db1, _) => (db1, .ok "Książka zarezerwowana!")

/-- `UserHandler.BorrowFromReservation`: load the reservation; guard
ownership, `CanBeCompleted` and `CanBorrow`; create the loan exactly as
in borrow but with no availability decrement; increment the user's loan
counter and complete the reservation (both failures only logged);
answer with the pickup code. -/
def UserHandler.BorrowFromReservation (db : DB) (now : Int)
    (sessionUserId reservationID newLoanId code : String) : DB × Except String String :=
  if reservationID = "" then (db, .error "Brak ID rezerwacji")
  else
    match Client.GetReservation db reservationID with
    | .error _ => (db, .error "Nie znaleziono rezerwacji")
    | .ok reservation =>
      if reservation.userId ≠ sessionUserId then (db, .error "To nie Twoja rezerwacja")
      else if !(reservation.canBeCompleted now) then
        (db, .error "Rezerwacja nie jest gotowa do wypożyczenia lub wygasła.")
      else
        match Client.GetUser db sessionUserId with
        | .error _ => (db, .error "Błąd pobierania danych użytkownika")
        | .ok user =>
          if !user.canBorrow then
            (db, .error "Osiągnięto limit wypożyczeń lub konto jest nieaktywne.")
          else
            match Client.CreateLoan db now newLoanId code reservation.bookId sessionUserId
                reservation.bookTitle user.fullName with
            | .error _ => (db, .error "Nie udało się wypożyczyć książki")
            | .ok (db1, loan) =>
              let db2 := (Client.UpdateUser db1 now sessionUserId
                { user with currentLoans := user.currentLoans + 1, updatedAt := now }).1
              let db3 := (Client.CompleteReservation db2 now reservationID).1
              (db3, .ok loan.pickupCode)

/-- Queue snapshot of `UserHandler.CancelReservation`: a failing
`GetNextReservation` query is only logged and leaves no next
reservation, so the handler then takes the release-to-pool path. -/
def UserHandler.nextOrNone (db : DB) (bookID : String) : Option Reservation :=
  match Client.GetNextReservation db bookID with
  | .error _ => none
  | .ok n => n

/-- Tail of `UserHandler.CancelReservation` after the queue snapshot: the
handler marks the chosen reservation ready (any error only logged), or
fetches the book and stores it back with a raw, unclamped
`AvailableCopies++` (any error only logged); it answers success either
way. -/
def UserHandler.cancelQueueBranch (db : DB) (now : Int) (bookID : String)
    (next : Option Reservation) : DB :=
  match next with
  | some nr => (Client.MarkReservationReady db now nr.id).1
  | none =>
    match Client.GetBook db bookID with
    | .error _ => db
    | .ok book =>
      (Client.UpdateBook db now bookID
        { book with availableCopies := book.availableCopies + 1, updatedAt := now }).1

/-- `UserHandler.CancelReservation`, with the race window between the
`GetNextReservation` snapshot and the subsequent store writes exposed as
`interfere`.  Steps: load the reservation; guard ownership; cancel it;
take the queue snapshot (a query error is only logged, leaving the
snapshot empty); then `cancelQueueBranch`, unconditionally on the
cancelled reservation's prior status. -/
def UserHandler.CancelReservationW (interfere : DB → DB) (db : DB) (now : Int)
    (sessionUserId reservationID : String) : DB × Except String String :=
  if reservationID = "" then (db, .error "Brak ID rezerwacji")
  else
    match Client.GetReservation db reservationID with
    | .error _ => (db, .error "Nie znaleziono rezerwacji")
    | .ok reservation =>
      if reservation.userId ≠ sessionUserId then (db, .error "To nie Twoja rezerwacja")
      else
        match Client.CancelReservation db now reservationID with
        | (dbX, some _) => (dbX, .error "Nie udało się anulować rezerwacji")
        | (db1, none) =>
          (UserHandler.cancelQueueBranch (interfere db1) now reservation.bookId
            (UserHandler.nextOrNone db1 reservation.bookId),
           .ok "Rezerwacja została anulowana.")

/-- `UserHandler.CancelReservation`: the sequential cancel workflow. -/
def UserHandler.CancelReservation (db : DB) (now : Int)
    (sessionUserId reservationID : String) : DB × Except String String :=
  UserHandler.CancelReservationW id db now sessionUserId reservationID

/-!
Helper lemmas about the store primitives, shared by the claim theorems.
-/

/-- A successful `GetUser` means the id is nonempty and the lookup found
this record. -/
theorem GetUser_ok {db : DB} {id : String} {u : User}
    (h : Client.GetUser db id = .ok u) :
    id ≠ "" ∧ db.users.find? (fun x => decide (x.id = id)) = some u := by
  unfold Client.GetUser at h
  split at h
  · exact absurd h (by simp)
  · rename_i hne
    refine ⟨hne, ?_⟩
    cases hf : db.users.find? (fun x => decide (x.id = id)) with
    | none => rw [hf] at h; exact absurd h (by simp)
    | some v => rw [hf] at h; cases h; rfl

/-- A successful `GetBook` means the id is nonempty and the lookup found
this record. -/
theorem GetBook_ok {db : DB} {id : String} {b : Book}
    (h : Client.GetBook db id = .ok b) :
    id ≠ "" ∧ db.books.find? (fun x => decide (x.id = id)) = some b := by
  unfold Client.GetBook at h
  split at h
  · exact absurd h (by simp)
  · rename_i hne
    refine ⟨hne, ?_⟩
    cases hf : db.books.find? (fun x => decide (x.id = id)) with
    | none => rw [hf] at h; exact absurd h (by simp)
    | some v => rw [hf] at h; cases h; rfl

/-- A successful `GetReservation` means the id is nonempty and the lookup
found this record. -/
theorem GetReservation_ok {db : DB} {id : String} {r : Reservation}
    (h : Client.GetReservation db id = .ok r) :
    id ≠ "" ∧ db.reservations.find? (fun x => decide (x.id = id)) = some r := by
  unfold Client.GetReservation at h
  split at h
  · exact absurd h (by simp)
  · rename_i hne
    refine ⟨hne, ?_⟩
    cases hf : db.reservations.find? (fun x => decide (x.id = id)) with
    | none => rw [hf] at h; exact absurd h (by simp)
    | some v => rw [hf] at h; cases h; rfl

/-- A successful `GetLoan` means the id is nonempty and the lookup found
this record. -/
theorem GetLoan_ok {db : DB} {id : String} {l : Loan}
    (h : Client.GetLoan db id = .ok l) :
    id ≠ "" ∧ db.loans.find? (fun x => decide (x.id = id)) = some l := by
  unfold Client.GetLoan at h
  split at h
  · exact absurd h (by simp)
  · rename_i hne
    refine ⟨hne, ?_⟩
    cases hf : db.loans.find? (fun x => decide (x.id = id)) with
    | none => rw [hf] at h; exact absurd h (by simp)
    | some v => rw [hf] at h; cases h; rfl

/-- After replacing every record whose key is `id` by `n` (with
`key n = id`), a key lookup that previously succeeded finds `n`. -/
theorem find?_map_replace {α : Type} (key : α → String) (id : String) (n : α)
    (hn : key n = id) :
    ∀ l : List α, (l.find? (fun x => decide (key x = id))).isSome →
      (l.map (fun x => if key x = id then n else x)).find?
        (fun x => decide (key x = id)) = some n := by
  intro l
  induction l with
  | nil => simp
  | cons a t ih =>
    intro h
    by_cases ha : key a = id
    · simp only [List.map_cons, if_pos ha]
      rw [List.find?_cons_of_pos]
      simp [hn]
    · simp only [List.map_cons, if_neg ha]
      rw [List.find?_cons_of_neg _ (by simp [ha])]
      rw [List.find?_cons_of_neg _ (by simp [ha])] at h
      exact ih h

/-- In a list whose keys are `Nodup`, the key lookup of a member returns
that member. -/
theorem find?_eq_of_mem_nodup {α : Type} (key : α → String) {l : List α} {x : α}
    (hmem : x ∈ l) (hnd : (l.map key).Nodup) :
    l.find? (fun y => decide (key y = key x)) = some x := by
  induction l with
  | nil => cases hmem
  | cons a t ih =>
    rcases List.mem_cons.mp hmem with rfl | hmt
    · rw [List.find?_cons_of_pos]
      simp
    · simp only [List.map_cons, List.nodup_cons] at hnd
      have hne : key a ≠ key x := by
        intro he
        exact hnd.1 (he ▸ List.mem_map_of_mem key hmt)
      rw [List.find?_cons_of_neg _ (by simp [hne])]
      exact ih hmt hnd.2

/-- The element produced by the `pickStep` fold is the accumulator or a
member of the list. -/
theorem foldl_pickStep_mem :
    ∀ (rs : List Reservation) (acc : Option Reservation) (r : Reservation),
      rs.foldl pickStep acc = some r → acc = some r ∨ r ∈ rs := by
  intro rs
  induction rs with
  | nil => intro acc r h; exact Or.inl h
  | cons a t ih =>
    intro acc r h
    rcases ih (pickStep acc a) r h with hstep | hmem
    · cases acc with
      | none =>
        cases hstep
        exact Or.inr (List.mem_cons_self a t)
      | some o =>
        by_cases hlt : a.createdAt < o.createdAt
        · rw [show pickStep (some o) a = some a by simp [pickStep, hlt]] at hstep
          cases hstep
          exact Or.inr (List.mem_cons_self a t)
        · rw [show pickStep (some o) a = some o by simp [pickStep, hlt]] at hstep
          exact Or.inl hstep
    · exact Or.inr (List.mem_cons_of_mem a hmem)

/-- `pickOldest` returns a member of its input. -/
theorem pickOldest_mem {rs : List Reservation} {r : Reservation}
    (h : pickOldest rs = some r) : r ∈ rs := by
  rcases foldl_pickStep_mem rs none r h with h' | h'
  · cases h'
  · exact h'

/-- A reservation returned by `GetNextReservation` belongs to the queried
book and is `pending`. -/
theorem getNext_ok_some {db : DB} {bid : String} {r : Reservation}
    (h : Client.GetNextReservation db bid = .ok (some r)) :
    r.bookId = bid ∧ r.status = ReservationStatus.pending ∧ r ∈ db.reservations := by
  unfold Client.GetNextReservation at h
  split at h
  · exact absurd h (by simp)
  · have hp : pickOldest (db.reservations.filter (fun r =>
        decide (r.bookId = bid) && decide (r.status = ReservationStatus.pending))) = some r := by
      simpa only [Except.ok.injEq] using h
    have hmem := pickOldest_mem hp
    have := List.mem_filter.mp hmem
    simp only [Bool.and_eq_true, decide_eq_true_eq] at this
    exact ⟨this.2.1, this.2.2, this.1⟩

/-- `GetNextReservation` only reads the reservations collection. -/
theorem getNext_congr {db1 db2 : DB} (h : db1.reservations = db2.reservations)
    (bid : String) :
    Client.GetNextReservation db1 bid = Client.GetNextReservation db2 bid := by
  unfold Client.GetNextReservation
  rw [h]

/-- `UpdateLoan` touches only the loans collection. -/
theorem UpdateLoan_frame (db : DB) (now : Int) (id : String) (loan : Loan) :
    (Client.UpdateLoan db now id loan).1.books = db.books ∧
    (Client.UpdateLoan db now id loan).1.reservations = db.reservations ∧
    (Client.UpdateLoan db now id loan).1.users = db.users := by
  unfold Client.UpdateLoan
  split
  · exact ⟨rfl, rfl, rfl⟩
  · split <;> exact ⟨rfl, rfl, rfl⟩

/-- `UpdateUser` touches only the users collection. -/
theorem UpdateUser_frame (db : DB) (now : Int) (id : String) (user : User) :
    (Client.UpdateUser db now id user).1.books = db.books ∧
    (Client.UpdateUser db now id user).1.reservations = db.reservations ∧
    (Client.UpdateUser db now id user).1.loans = db.loans := by
  unfold Client.UpdateUser
  split
  · exact ⟨rfl, rfl, rfl⟩
  · split <;> exact ⟨rfl, rfl, rfl⟩

/-- `UpdateReservation` touches only the reservations collection. -/
theorem UpdateReservation_frame (db : DB) (now : Int) (id : String) (r : Reservation) :
    (Client.UpdateReservation db now id r).1.books = db.books ∧
    (Client.UpdateReservation db now id r).1.loans = db.loans ∧
    (Client.UpdateReservation db now id r).1.users = db.users := by
  unfold Client.UpdateReservation
  split
  · exact ⟨rfl, rfl, rfl⟩
  · split <;> exact ⟨rfl, rfl, rfl⟩

/-- `UpdateBook` touches only the books collection. -/
theorem UpdateBook_frame (db : DB) (now : Int) (id : String) (b : Book) :
    (Client.UpdateBook db now id b).1.loans = db.loans ∧
    (Client.UpdateBook db now id b).1.reservations = db.reservations ∧
    (Client.UpdateBook db now id b).1.users = db.users := by
  unfold Client.UpdateBook
  split
  · exact ⟨rfl, rfl, rfl⟩
  · split <;> exact ⟨rfl, rfl, rfl⟩

/-- `MarkReservationReady` touches only the reservations collection. -/
theorem MarkReservationReady_frame (db : DB) (now : Int) (id : String) :
    (Client.MarkReservationReady db now id).1.books = db.books ∧
    (Client.MarkReservationReady db now id).1.loans = db.loans ∧
    (Client.MarkReservationReady db now id).1.users = db.users := by
  unfold Client.MarkReservationReady
  split
  · exact ⟨rfl, rfl, rfl⟩
  · split
    · exact ⟨rfl, rfl, rfl⟩
    · exact UpdateReservation_frame ..

/-- `CompleteReservation` touches only the reservations collection. -/
theorem CompleteReservation_frame (db : DB) (now : Int) (id : String) :
    (Client.CompleteReservation db now id).1.books = db.books ∧
    (Client.CompleteReservation db now id).1.loans = db.loans ∧
    (Client.CompleteReservation db now id).1.users = db.users := by
  unfold Client.CompleteReservation
  split
  · exact ⟨rfl, rfl, rfl⟩
  · split
    · exact ⟨rfl, rfl, rfl⟩
    · exact UpdateReservation_frame ..

/-- `UpdateBookAvailability` touches only the books collection. -/
theorem UpdateBookAvailability_frame (db : DB) (now : Int) (id : String) (inc : Bool) :
    (Client.UpdateBookAvailability db now id inc).1.loans = db.loans ∧
    (Client.UpdateBookAvailability db now id inc).1.reservations = db.reservations ∧
    (Client.UpdateBookAvailability db now id inc).1.users = db.users := by
  unfold Client.UpdateBookAvailability
  split
  · exact ⟨rfl, rfl, rfl⟩
  · split
    · exact ⟨rfl, rfl, rfl⟩
    · split <;> exact ⟨rfl, rfl, rfl⟩

/-- `UpdateUserLoansCount` touches only the users collection. -/
theorem UpdateUserLoansCount_frame (db : DB) (now : Int) (id : String) (inc : Bool) :
    (Client.UpdateUserLoansCount db now id inc).1.books = db.books ∧
    (Client.UpdateUserLoansCount db now id inc).1.loans = db.loans ∧
    (Client.UpdateUserLoansCount db now id inc).1.reservations = db.reservations := by
  unfold Client.UpdateUserLoansCount
  split <;> exact ⟨rfl, rfl, rfl⟩

/-!
Claim C10: the reservation cancel transition.
-/

/-- C10: the reservation cancel transition is permitted exactly before
completion: `Client.CancelReservation` on a `completed` reservation fails
with the already-completed error and changes nothing, while on any
not-yet-completed reservation (in particular `pending` or `ready`) it
succeeds and sets the reservation's status to `cancelled`. -/
theorem cancelReservation_transition (db : DB) (now : Int) (rid : String)
    (r : Reservation) (h : Client.GetReservation db rid = .ok r) :
    (r.status = ReservationStatus.completed →
      Client.CancelReservation db now rid =
        (db, some "nie można anulować zrealizowanej rezerwacji")) ∧
    (r.status ≠ ReservationStatus.completed →
      ∃ db', Client.CancelReservation db now rid = (db', none) ∧
        db'.reservationStatus rid = some ReservationStatus.cancelled) := by
  obtain ⟨hne, hf⟩ := GetReservation_ok h
  constructor
  · intro hc
    unfold Client.CancelReservation
    simp only [h]
    rw [if_pos hc]
  · intro hnc
    unfold Client.CancelReservation
    simp only [h]
    rw [if_neg hnc]
    unfold Client.UpdateReservation
    rw [if_neg hne]
    simp only [h]
    refine ⟨_, rfl, ?_⟩
    unfold DB.reservationStatus
    have hrepl :
        (db.reservations.map (fun x => if x.id = rid then
          { { r with status := ReservationStatus.cancelled, updatedAt := now } with
            updatedAt := now, id := rid } else x)).find?
          (fun x => decide (x.id = rid)) =
        some { { r with status := ReservationStatus.cancelled, updatedAt := now } with
            updatedAt := now, id := rid } :=
      find?_map_replace (fun x => x.id) rid _ rfl db.reservations (by rw [hf]; rfl)
    rw [hrepl]
    rfl

/-- Witness for C10 on a concrete store holding one `pending`
reservation. -/
def rW10 : Reservation :=
  { id := "R1", bookId := "B1", userId := "U1", bookTitle := "T", userName := "A B",
    status := ReservationStatus.pending, reservationDate := 2, expiryDate := 74,
    notifiedDate := none, createdAt := 2, updatedAt := 2 }

/-- Concrete store for the C10 witness. -/
def dbW10 : DB := { books := [], loans := [], reservations := [rW10], users := [] }

/-- C10 witness: the cancel-transition theorem applied to a concrete
pending reservation. -/
theorem cancelReservation_transition_witness :
    (rW10.status = ReservationStatus.completed →
      Client.CancelReservation dbW10 7 "R1" =
        (dbW10, some "nie można anulować zrealizowanej rezerwacji")) ∧
    (rW10.status ≠ ReservationStatus.completed →
      ∃ db', Client.CancelReservation dbW10 7 "R1" = (db', none) ∧
        db'.reservationStatus "R1" = some ReservationStatus.cancelled) :=
  cancelReservation_transition dbW10 7 "R1" rW10 (by rfl)

/-!
Claim C5: strict FIFO of the pending-reservation queue.
-/

/-- C5: `Client.GetNextReservation` is strict FIFO.  For three
reservations of the same book created at times `t1 < t2 < t3` (for
records made by `CreateReservation`, `reservationDate = createdAt`, so
ordering by creation time is ordering by `reservationDate`): the `t1`
reservation is returned as long as it is `pending`, then the `t2` one,
then the `t3` one, and with no pending reservation left the result is
`Except.ok none` — a normal outcome, not an error. -/
theorem getNextReservation_fifo (db : DB) (b : String) (hb : b ≠ "")
    (r1 r2 r3 : Reservation)
    (hdb : db.reservations = [r1, r2, r3])
    (hb1 : r1.bookId = b) (hb2 : r2.bookId = b) (hb3 : r3.bookId = b)
    (hrc1 : r1.reservationDate = r1.createdAt)
    (hrc2 : r2.reservationDate = r2.createdAt)
    (hrc3 : r3.reservationDate = r3.createdAt)
    (h12 : r1.reservationDate < r2.reservationDate)
    (h23 : r2.reservationDate < r3.reservationDate) :
    (r1.status = ReservationStatus.pending →
      Client.GetNextReservation db b = .ok (some r1)) ∧
    (r1.status ≠ ReservationStatus.pending → r2.status = ReservationStatus.pending →
      Client.GetNextReservation db b = .ok (some r2)) ∧
    (r1.status ≠ ReservationStatus.pending → r2.status ≠ ReservationStatus.pending →
      r3.status = ReservationStatus.pending →
      Client.GetNextReservation db b = .ok (some r3)) ∧
    (r1.status ≠ ReservationStatus.pending → r2.status ≠ ReservationStatus.pending →
      r3.status ≠ ReservationStatus.pending →
      Client.GetNextReservation db b = .ok none) := by
  have hc12 : r1.createdAt < r2.createdAt := by rw [← hrc1, ← hrc2]; exact h12
  have hc23 : r2.createdAt < r3.createdAt := by rw [← hrc2, ← hrc3]; exact h23
  have hc13 : r1.createdAt < r3.createdAt := hc12.trans hc23
  have hn21 : ¬(r2.createdAt < r1.createdAt) := not_lt.mpr hc12.le
  have hn31 : ¬(r3.createdAt < r1.createdAt) := not_lt.mpr hc13.le
  have hn32 : ¬(r3.createdAt < r2.createdAt) := not_lt.mpr hc23.le
  unfold Client.GetNextReservation
  rw [if_neg hb, hdb]
  refine ⟨?_, ?_, ?_, ?_⟩
  · intro hp1
    by_cases hp2 : r2.status = ReservationStatus.pending <;>
      by_cases hp3 : r3.status = ReservationStatus.pending <;>
        simp [List.filter, hb1, hb2, hb3, hp1, hp2, hp3, pickOldest, pickStep,
          hn21, hn31, hn32]
  · intro hp1 hp2
    by_cases hp3 : r3.status = ReservationStatus.pending <;>
      simp [List.filter, hb1, hb2, hb3, hp1, hp2, hp3, pickOldest, pickStep,
        hn21, hn31, hn32]
  · intro hp1 hp2 hp3
    simp [List.filter, hb1, hb2, hb3, hp1, hp2, hp3, pickOldest, pickStep]
  · intro hp1 hp2 hp3
    simp [List.filter, hb1, hb2, hb3, hp1, hp2, hp3, pickOldest, pickStep]

/-- Reservations for the C5 witness: three pending reservations of one
book, created at hours 1, 2 and 3. -/
def rsW5 : List Reservation :=
  [{ id := "R1", bookId := "B1", userId := "U1", bookTitle := "T", userName := "N1",
     status := ReservationStatus.pending, reservationDate := 1, expiryDate := 73,
     notifiedDate := none, createdAt := 1, updatedAt := 1 },
   { id := "R2", bookId := "B1", userId := "U2", bookTitle := "T", userName := "N2",
     status := ReservationStatus.pending, reservationDate := 2, expiryDate := 74,
     notifiedDate := none, createdAt := 2, updatedAt := 2 },
   { id := "R3", bookId := "B1", userId := "U3", bookTitle := "T", userName := "N3",
     status := ReservationStatus.pending, reservationDate := 3, expiryDate := 75,
     notifiedDate := none, createdAt := 3, updatedAt := 3 }]

/-- Concrete store for the C5 witness. -/
def dbW5 : DB := { books := [], loans := [], reservations := rsW5, users := [] }

/-- C5 witness: the FIFO theorem applied to the concrete three-element
queue. -/
theorem getNextReservation_fifo_witness :
    (rsW5.get ⟨0, by simp [rsW5]⟩).status = ReservationStatus.pending ∧
    Client.GetNextReservation dbW5 "B1" = .ok (some (rsW5.get ⟨0, by simp [rsW5]⟩)) := by
  refine ⟨by decide, ?_⟩
  exact (getNextReservation_fifo dbW5 "B1" (by decide)
    (rsW5.get ⟨0, by simp [rsW5]⟩) (rsW5.get ⟨1, by simp [rsW5]⟩) (rsW5.get ⟨2, by simp [rsW5]⟩)
    rfl rfl rfl rfl rfl rfl rfl (by decide) (by decide)).1 (by decide)

/-!
Claim C2: the fine stored by Return.
-/

/-- Initial store for the C2 scenario: one book with one available copy
and one active borrower-to-be. -/
def dbC2start : DB :=
  { books := [{ id := "B1", title := "T", totalCopies := 1, availableCopies := 1,
                createdAt := 0, updatedAt := 0 }],
    loans := [],
    reservations := [],
    users := [{ id := "U1", firstName := "A", lastName := "B", isActive := true,
                maxLoans := 5, currentLoans := 0, createdAt := 0, updatedAt := 0 }] }

/-- Store after `BorrowBook` at hour 0 (loan `L1`, code `CODE01`). -/
def dbC2a : DB := (BooksHandler.BorrowBook dbC2start 0 "U1" "B1" "L1" "CODE01").1

/-- Store after `ConfirmPickup` at hour 0: loan `L1` is `active` with
`dueDate = 336` (14 days). -/
def dbC2b : DB := (Client.ConfirmPickup dbC2a 0 "CODE01").1

/-- C2 (code bug): after Borrow → ConfirmPickup, returning the loan
5 days (120 hours) past its due date succeeds but stores
`fineAmount = 0`, although the per-day fine formula
(`Loan.calculateFine`, 1 unit per day) on the still-active loan gives 5.
`Client.ReturnLoan` sets `status = returned` *before* evaluating
`loan.IsOverdue()`, whose `status == active` conjunct therefore never
holds, so the fine branch is dead code and the claimed `fineAmount == 5`
is never stored.  (The other half of the claim — an on-time return
yields `fineAmount == 0` — agrees with the code trivially.) -/
theorem returnLoan_fine_bug :
    (dbC2b.loanById "L1").map (fun l => l.status) = some LoanStatus.active ∧
    (dbC2b.loanById "L1").map (fun l => l.dueDate) = some 336 ∧
    (dbC2b.loanById "L1").map (fun l => l.calculateFine 456) = some 5 ∧
    (Client.ReturnLoan dbC2b 456 "L1").2 = none ∧
    ((Client.ReturnLoan dbC2b 456 "L1").1.loanById "L1").map (fun l => l.fineAmount) =
      some 0 := by
  refine ⟨?_, ?_, ?_, ?_, ?_⟩ <;> rfl

/-!
Claim C3: what CancelReservation releases.
-/

/-- Store for the C3 counterexample: book `B1` has 1 of 2 copies
available and user `U1` holds one `pending` reservation `R1` on it; no
other reservation exists. -/
def dbC3 : DB :=
  { books := [{ id := "B1", title := "T", totalCopies := 2, availableCopies := 1,
                createdAt := 0, updatedAt := 0 }],
    loans := [],
    reservations := [{ id := "R1", bookId := "B1", userId := "U1", bookTitle := "T",
                       userName := "A B", status := ReservationStatus.pending,
                       reservationDate := 2, expiryDate := 170, notifiedDate := none,
                       createdAt := 2, updatedAt := 2 }],
    users := [{ id := "U1", firstName := "A", lastName := "B", isActive := true,
                maxLoans := 5, currentLoans := 0, createdAt := 0, updatedAt := 0 }] }

/-- C3 counterexample: cancelling a reservation that was `pending` —
which never held a copy — still increments `availableCopies` (1 → 2),
refuting the claim that after cancelling a pending reservation no
promotion happens *and availableCopies is unchanged*. -/
theorem cancelReservation_pending_releases_copy :
    dbC3.reservationStatus "R1" = some ReservationStatus.pending ∧
    dbC3.bookAvail "B1" = some 1 ∧
    (UserHandler.CancelReservation dbC3 10 "U1" "R1").2 =
      .ok "Rezerwacja została anulowana." ∧
    (UserHandler.CancelReservation dbC3 10 "U1" "R1").1.reservationStatus "R1" =
      some ReservationStatus.cancelled ∧
    (UserHandler.CancelReservation dbC3 10 "U1" "R1").1.bookAvail "B1" = some 2 := by
  refine ⟨?_, ?_, ?_, ?_, ?_⟩ <;> rfl

/-!
Claim C4: the availability invariant.
-/

/-- Store for the C4 violation: the invariant `0 ≤ availableCopies ≤
totalCopies` holds (`1 ≤ 1`), and user `U1` owns a `pending` reservation
on the fully-available book. -/
def dbC4 : DB :=
  { books := [{ id := "B1", title := "T", totalCopies := 1, availableCopies := 1,
                createdAt := 0, updatedAt := 0 }],
    loans := [],
    reservations := [{ id := "R1", bookId := "B1", userId := "U1", bookTitle := "T",
                       userName := "A B", status := ReservationStatus.pending,
                       reservationDate := 2, expiryDate := 170, notifiedDate := none,
                       createdAt := 2, updatedAt := 2 }],
    users := [{ id := "U1", firstName := "A", lastName := "B", isActive := true,
                maxLoans := 5, currentLoans := 0, createdAt := 0, updatedAt := 0 }] }

/-- C4 (code bug): from a state satisfying `0 ≤ availableCopies ≤
totalCopies`, a single public workflow call — `CancelReservation` of a
pending reservation — drives `availableCopies` to 2 while `totalCopies`
is 1, violating the invariant.  The cancel handler (like `ReturnLoan`)
writes a raw `book.AvailableCopies++` instead of the clamped
`Book.IncrementAvailableCopies` that the model defines for this purpose,
so the upper bound is not preserved. -/
theorem cancelReservation_breaks_invariant :
    dbC4.bookAvail "B1" = some 1 ∧
    ((dbC4.books.find? (fun bk => decide (bk.id = "B1"))).map
      (fun bk => bk.totalCopies)) = some 1 ∧
    (UserHandler.CancelReservation dbC4 10 "U1" "R1").2 =
      .ok "Rezerwacja została anulowana." ∧
    (UserHandler.CancelReservation dbC4 10 "U1" "R1").1.bookAvail "B1" = some 2 ∧
    ((UserHandler.CancelReservation dbC4 10 "U1" "R1").1.books.find?
      (fun bk => decide (bk.id = "B1"))).map (fun bk => bk.totalCopies) = some 1 := by
  refine ⟨?_, ?_, ?_, ?_, ?_⟩ <;> rfl

/-!
Claim C6: Borrow precondition failures mutate nothing.
-/

/-- C6: when the session user cannot borrow (loan limit reached or
account inactive), or the book has no available copy, `BorrowBook` fails
with an error response and returns the store exactly as it was: no loan
is created, `availableCopies` is unchanged, `currentLoans` is
unchanged. -/
theorem borrowBook_precondition_no_mutation (db : DB) (now : Int)
    (uid bid nid code : String) (u : User)
    (hu : Client.GetUser db uid = .ok u) :
    (u.canBorrow = false →
      ∃ e, BooksHandler.BorrowBook db now uid bid nid code = (db, .error e)) ∧
    (∀ b, Client.GetBook db bid = .ok b → b.isAvailable = false →
      ∃ e, BooksHandler.BorrowBook db now uid bid nid code = (db, .error e)) := by
  unfold BooksHandler.BorrowBook BooksHandler.BorrowBookW
  by_cases hbid : bid = ""
  · rw [if_pos hbid]
    exact ⟨fun _ => ⟨_, rfl⟩, fun b hgb _ => absurd hbid (GetBook_ok hgb).1⟩
  · rw [if_neg hbid]
    simp only [hu]
    constructor
    · intro hcb
      rw [if_pos (by rw [hcb]; rfl)]
      exact ⟨_, rfl⟩
    · intro b hgb hav
      by_cases hcb : u.canBorrow
      · rw [if_neg (by rw [hcb]; simp)]
        simp only [hgb]
        rw [if_pos (by rw [hav]; rfl)]
        exact ⟨_, rfl⟩
      · rw [if_pos (by rw [Bool.eq_false_iff.mpr hcb]; rfl)]
        exact ⟨_, rfl⟩

/-- Store for the C6 witness: user `U1` is at the loan limit
(`maxLoans = 1 = currentLoans`), the book is on the shelf. -/
def dbW6 : DB :=
  { books := [{ id := "B1", title := "T", totalCopies := 1, availableCopies := 1,
                createdAt := 0, updatedAt := 0 }],
    loans := [],
    reservations := [],
    users := [{ id := "U1", firstName := "A", lastName := "B", isActive := true,
                maxLoans := 1, currentLoans := 1, createdAt := 0, updatedAt := 0 }] }

/-- C6 witness: the precondition theorem applied to a user at the loan
limit. -/
theorem borrowBook_precondition_no_mutation_witness :
    (({ id := "U1", firstName := "A", lastName := "B", isActive := true,
        maxLoans := 1, currentLoans := 1, createdAt := 0, updatedAt := 0 } : User).canBorrow
        = false →
      ∃ e, BooksHandler.BorrowBook dbW6 0 "U1" "B1" "L1" "CODE01" = (dbW6, .error e)) ∧
    (∀ b, Client.GetBook dbW6 "B1" = .ok b → b.isAvailable = false →
      ∃ e, BooksHandler.BorrowBook dbW6 0 "U1" "B1" "L1" "CODE01" = (dbW6, .error e)) :=
  borrowBook_precondition_no_mutation dbW6 0 "U1" "B1" "L1" "CODE01" _ (by rfl)

/-!
Claim C9: degraded success of Borrow after the loan is created.
-/

/-- C9: once `CreateLoan` has committed in `BorrowBook`, a failure of a
later step — the availability decrement or the user loan-counter
increment (realizable only through interference in the race window,
e.g. a concurrent borrow taking the last copy) — does not fail the
operation and does not remove the loan: the handler still answers
success with the pickup code, and the created loan is still in the
store. -/
theorem borrowBook_degraded_success (interfere : DB → DB) (db db1 : DB) (now : Int)
    (uid bid nid code : String) (u : User) (b : Book) (newLoan : Loan)
    (hu : Client.GetUser db uid = .ok u)
    (hcb : u.canBorrow = true)
    (hb : Client.GetBook db bid = .ok b)
    (hav : b.isAvailable = true)
    (hcreate : Client.CreateLoan db now nid code bid uid b.title u.fullName =
      .ok (db1, newLoan))
    (hlater : (Client.UpdateBookAvailability (interfere db1) now bid false).2 ≠ none ∨
      (Client.UpdateUserLoansCount
        ((Client.UpdateBookAvailability (interfere db1) now bid false).1)
        now uid true).2 ≠ none)
    (hkeep : newLoan ∈ (interfere db1).loans) :
    ∃ dbf, BooksHandler.BorrowBookW interfere db now uid bid nid code =
      (dbf, .ok newLoan.pickupCode) ∧ newLoan ∈ dbf.loans := by
  have hbid : bid ≠ "" := (GetBook_ok hb).1
  unfold BooksHandler.BorrowBookW
  rw [if_neg hbid]
  simp only [hu]
  rw [if_neg (by rw [hcb]; simp)]
  simp only [hb]
  rw [if_neg (by rw [hav]; simp)]
  simp only [hcreate]
  refine ⟨_, rfl, ?_⟩
  rw [(UpdateUserLoansCount_frame _ now uid true).2.1]
  rw [(UpdateBookAvailability_frame _ now bid false).1]
  exact hkeep

/-- Store for the C9 witness: the last copy of `B1` is on the shelf and
`U1` may borrow. -/
def dbW9 : DB :=
  { books := [{ id := "B1", title := "T", totalCopies := 1, availableCopies := 1,
                createdAt := 0, updatedAt := 0 }],
    loans := [],
    reservations := [],
    users := [{ id := "U1", firstName := "A", lastName := "B", isActive := true,
                maxLoans := 5, currentLoans := 0, createdAt := 0, updatedAt := 0 }] }

/-- Interference for the C9 witness: a concurrent request decrements the
last available copy inside the race window. -/
def interfereW9 : DB → DB := fun d => (Client.UpdateBookAvailability d 0 "B1" false).1

/-- The loan `CreateLoan` commits in the C9 witness scenario. -/
def loanW9 : Loan :=
  { id := "L1", bookId := "B1", userId := "U1", bookTitle := "T", userName := "A B",
    pickupCode := "C1", status := LoanStatus.pendingPickup, loanDate := 0, dueDate := 0,
    returnDate := none, fineAmount := 0, createdAt := 0, updatedAt := 0 }

/-- C9 witness: concrete run in which the availability decrement fails
(the last copy was taken concurrently) yet borrow still reports success
with the pickup code and keeps the loan. -/
theorem borrowBook_degraded_success_witness :
    ∃ dbf, BooksHandler.BorrowBookW interfereW9 dbW9 0 "U1" "B1" "L1" "C1" =
      (dbf, .ok loanW9.pickupCode) ∧ loanW9 ∈ dbf.loans :=
  borrowBook_degraded_success interfereW9 dbW9 { dbW9 with loans := [loanW9] } 0
    "U1" "B1" "L1" "C1"
    { id := "U1", firstName := "A", lastName := "B", isActive := true,
      maxLoans := 5, currentLoans := 0, createdAt := 0, updatedAt := 0 }
    { id := "B1", title := "T", totalCopies := 1, availableCopies := 1,
      createdAt := 0, updatedAt := 0 }
    loanW9 (by rfl) (by rfl) (by rfl) (by rfl) (by rfl)
    (Or.inl (by decide)) (by decide)

/-!
Claim C7: BorrowFromReservation effects and guards.
-/

/-- C7: `BorrowFromReservation` on a foreign reservation fails Forbidden
with nothing mutated; on a reservation that is not ready or has expired
it fails with nothing mutated; and on success it appends a new
`pending_pickup` loan for the reservation's book, marks the reservation
`completed`, increments the caller's `currentLoans` by exactly 1, and
leaves the books collection — in particular `availableCopies` —
untouched. -/
theorem borrowFromReservation_spec (db : DB) (now : Int) (uid rid nid code : String)
    (r : Reservation) (hr : Client.GetReservation db rid = .ok r) :
    (r.userId ≠ uid →
      UserHandler.BorrowFromReservation db now uid rid nid code =
        (db, .error "To nie Twoja rezerwacja")) ∧
    (r.userId = uid → r.canBeCompleted now = false →
      UserHandler.BorrowFromReservation db now uid rid nid code =
        (db, .error "Rezerwacja nie jest gotowa do wypożyczenia lub wygasła.")) ∧
    (∀ u, r.userId = uid → r.canBeCompleted now = true →
      Client.GetUser db uid = .ok u → u.canBorrow = true → r.bookId ≠ "" →
      ∃ db' newLoan,
        UserHandler.BorrowFromReservation db now uid rid nid code = (db', .ok code) ∧
        db'.loans = db.loans ++ [newLoan] ∧
        newLoan.status = LoanStatus.pendingPickup ∧
        newLoan.bookId = r.bookId ∧ newLoan.userId = uid ∧ newLoan.pickupCode = code ∧
        db'.reservationStatus rid = some ReservationStatus.completed ∧
        db'.userLoans uid = (db.userLoans uid).map (fun n => n + 1) ∧
        db'.books = db.books) := by
  have hrid : rid ≠ "" := (GetReservation_ok hr).1
  refine ⟨?_, ?_, ?_⟩
  · intro hown
    unfold UserHandler.BorrowFromReservation
    rw [if_neg hrid]
    simp only [hr]
    rw [if_pos hown]
  · intro hown hnc
    unfold UserHandler.BorrowFromReservation
    rw [if_neg hrid]
    simp only [hr]
    rw [if_neg (not_ne_iff.mpr hown), if_pos (by rw [hnc]; rfl)]
  · intro u hown hcc hu hcb hbid
    have huid : uid ≠ "" := (GetUser_ok hu).1
    obtain ⟨db1, L, hcl, hl1, hu1, hr1, hb1, hLs, hLb, hLu, hLc⟩ :
        ∃ db1 L, Client.CreateLoan db now nid code r.bookId uid r.bookTitle u.fullName =
            .ok (db1, L) ∧
          db1.loans = db.loans ++ [L] ∧ db1.users = db.users ∧
          db1.reservations = db.reservations ∧ db1.books = db.books ∧
          L.status = LoanStatus.pendingPickup ∧ L.bookId = r.bookId ∧ L.userId = uid ∧
          L.pickupCode = code := by
      unfold Client.CreateLoan
      rw [if_neg (by simp [hbid, huid])]
      exact ⟨_, _, rfl, rfl, rfl, rfl, rfl, rfl, rfl, rfl, rfl⟩
    have hgu1 : Client.GetUser db1 uid = .ok u := by
      unfold Client.GetUser at hu ⊢
      rw [hu1]
      exact hu
    obtain ⟨db2, hupd, hl2, hb2, hr2, hul2⟩ :
        ∃ db2, Client.UpdateUser db1 now uid
            { u with currentLoans := u.currentLoans + 1, updatedAt := now } =
            (db2, none) ∧
          db2.loans = db1.loans ∧ db2.books = db1.books ∧
          db2.reservations = db1.reservations ∧
          db2.userLoans uid = some (u.currentLoans + 1) := by
      unfold Client.UpdateUser
      rw [if_neg huid]
      simp only [hgu1]
      refine ⟨_, rfl, rfl, rfl, rfl, ?_⟩
      unfold DB.userLoans
      rw [find?_map_replace (fun x => x.id) uid _ rfl db1.users
        (by rw [hu1, (GetUser_ok hu).2]; rfl)]
      rfl
    have hgr2 : Client.GetReservation db2 rid = .ok r := by
      unfold Client.GetReservation at hr ⊢
      rw [hr2, hr1]
      exact hr
    obtain ⟨db3, hcomp, hl3, hb3, hus3, hrs3⟩ :
        ∃ db3, Client.CompleteReservation db2 now rid = (db3, none) ∧
          db3.loans = db2.loans ∧ db3.books = db2.books ∧ db3.users = db2.users ∧
          db3.reservationStatus rid = some ReservationStatus.completed := by
      unfold Client.CompleteReservation
      simp only [hgr2]
      rw [if_neg (by rw [hcc]; simp)]
      unfold Client.UpdateReservation
      rw [if_neg hrid]
      simp only [hgr2]
      refine ⟨_, rfl, rfl, rfl, rfl, ?_⟩
      unfold DB.reservationStatus
      rw [find?_map_replace (fun x => x.id) rid _ rfl db2.reservations
        (by rw [hr2, hr1, (GetReservation_ok hr).2]; rfl)]
      rfl
    refine ⟨db3, L, ?_, ?_, hLs, hLb, hLu, hLc, hrs3, ?_, ?_⟩
    · unfold UserHandler.BorrowFromReservation
      rw [if_neg hrid]
      simp only [hr]
      rw [if_neg (not_ne_iff.mpr hown), if_neg (by rw [hcc]; simp)]
      simp only [hu]
      rw [if_neg (by rw [hcb]; simp)]
      simp only [hcl, hupd, hcomp]
      rw [hLc]
    · rw [hl3, hl2, hl1]
    · rw [show db3.userLoans uid = db2.userLoans uid by unfold DB.userLoans; rw [hus3]]
      rw [hul2]
      rw [show db.userLoans uid = some u.currentLoans by
        unfold DB.userLoans
        rw [(GetUser_ok hu).2]
        rfl]
      rfl
    · rw [hb3, hb2, hb1]

/-- Ready reservation for the C7 witness. -/
def rW7 : Reservation :=
  { id := "R1", bookId := "B1", userId := "U2", bookTitle := "T", userName := "C D",
    status := ReservationStatus.ready, reservationDate := 2, expiryDate := 100,
    notifiedDate := some 5, createdAt := 2, updatedAt := 5 }

/-- User for the C7 witness. -/
def uW7 : User :=
  { id := "U2", firstName := "C", lastName := "D", isActive := true,
    maxLoans := 5, currentLoans := 0, createdAt := 0, updatedAt := 0 }

/-- Store for the C7 witness: scenario B of the spec — the book has no
available copy, the copy is earmarked for the ready reservation. -/
def dbW7 : DB :=
  { books := [{ id := "B1", title := "T", totalCopies := 1, availableCopies := 0,
                createdAt := 0, updatedAt := 0 }],
    loans := [],
    reservations := [rW7],
    users := [uW7] }

/-- C7 witness: completing the ready reservation at hour 10 creates a
`pending_pickup` loan, completes the reservation, bumps `currentLoans`,
and leaves the books untouched. -/
theorem borrowFromReservation_spec_witness :
    ∃ db' newLoan,
      UserHandler.BorrowFromReservation dbW7 10 "U2" "R1" "L1" "C1" = (db', .ok "C1") ∧
      db'.loans = dbW7.loans ++ [newLoan] ∧
      newLoan.status = LoanStatus.pendingPickup ∧
      newLoan.bookId = rW7.bookId ∧ newLoan.userId = "U2" ∧ newLoan.pickupCode = "C1" ∧
      db'.reservationStatus "R1" = some ReservationStatus.completed ∧
      db'.userLoans "U2" = (dbW7.userLoans "U2").map (fun n => n + 1) ∧
      db'.books = dbW7.books :=
  (borrowFromReservation_spec dbW7 10 "U2" "R1" "L1" "C1" rW7 (by rfl)).2.2
    uW7 (by rfl) (by decide) (by rfl) (by decide) (by decide)

/-!
Claim C8: what the workflows do when markReady fails.
-/

/-- Store for the C8 counterexample: `L1` is an active loan of `B1`
(0 copies available) and `R1` is the pending reservation its return will
pick from the queue. -/
def dbC8 : DB :=
  { books := [{ id := "B1", title := "T", totalCopies := 1, availableCopies := 0,
                createdAt := 0, updatedAt := 0 }],
    loans := [{ id := "L1", bookId := "B1", userId := "U1", bookTitle := "T",
                userName := "A B", pickupCode := "C1", status := LoanStatus.active,
                loanDate := 0, dueDate := 336, returnDate := none, fineAmount := 0,
                createdAt := 0, updatedAt := 0 }],
    reservations := [{ id := "R1", bookId := "B1", userId := "U2", bookTitle := "T",
                       userName := "C D", status := ReservationStatus.pending,
                       reservationDate := 2, expiryDate := 74, notifiedDate := none,
                       createdAt := 2, updatedAt := 2 }],
    users := [{ id := "U1", firstName := "A", lastName := "B", isActive := true,
                maxLoans := 5, currentLoans := 1, createdAt := 0, updatedAt := 0 }] }

/-- Interference for the C8 counterexample: a racing caller marks `R1`
ready inside the window between the queue snapshot and `markReady`. -/
def raceC8 : DB → DB := fun d => (Client.MarkReservationReady d 50 "R1").1

/-- C8 counterexample: when the `markReady` step of Return loses the
race (its `status == pending` guard rejects the now-`ready`
reservation), `Client.ReturnLoan` does *not* fall back to incrementing
`availableCopies` — it aborts with an error and availability stays 0,
refuting the claimed non-fatal fallback. -/
theorem returnLoan_markReady_failure_fatal :
    (Client.ReturnLoanW raceC8 dbC8 100 "L1").2 =
      some "błąd aktywacji rezerwacji: rezerwacja nie jest w stanie oczekiwania" ∧
    dbC8.bookAvail "B1" = some 0 ∧
    (Client.ReturnLoanW raceC8 dbC8 100 "L1").1.bookAvail "B1" = some 0 := by
  refine ⟨?_, ?_, ?_⟩ <;> rfl

/-- C8 amended: when `markReady` on the chosen next-pending reservation
fails, neither workflow falls back to incrementing availability.
`Client.ReturnLoan`'s queue branch turns the failure into an error of
the whole return (no increment), while `UserHandler.CancelReservation`'s
queue branch swallows the failure and leaves the store exactly as it was
(no increment either). -/
theorem queueBranch_markReady_failure (db : DB) (now : Int) (bid : String)
    (r : Reservation) (e : String)
    (hfail : Client.MarkReservationReady db now r.id = (db, some e)) :
    Client.returnQueueBranch db now bid (some r) =
      (db, some ("błąd aktywacji rezerwacji: " ++ e)) ∧
    UserHandler.cancelQueueBranch db now bid (some r) = db := by
  constructor
  · unfold Client.returnQueueBranch
    simp only [hfail]
  · unfold UserHandler.cancelQueueBranch
    simp only [hfail]

/-- Reservation for the C8 witness: already `ready`, so `markReady`
fails on it. -/
def rW8 : Reservation :=
  { id := "R1", bookId := "B1", userId := "U2", bookTitle := "T", userName := "C D",
    status := ReservationStatus.ready, reservationDate := 2, expiryDate := 122,
    notifiedDate := some 50, createdAt := 2, updatedAt := 50 }

/-- Store for the C8 witness. -/
def dbW8 : DB := { books := [], loans := [], reservations := [rW8], users := [] }

/-- C8 witness: the amended branch behavior on a concrete already-ready
reservation. -/
theorem queueBranch_markReady_failure_witness :
    Client.returnQueueBranch dbW8 60 "B1" (some rW8) =
      (dbW8, some ("błąd aktywacji rezerwacji: " ++
        "rezerwacja nie jest w stanie oczekiwania")) ∧
    UserHandler.cancelQueueBranch dbW8 60 "B1" (some rW8) = dbW8 :=
  queueBranch_markReady_failure dbW8 60 "B1" rW8
    "rezerwacja nie jest w stanie oczekiwania" (by rfl)

/-!
Claim C1: Return exclusivity.
-/

/-- C1: for every successful Return of a loan, exactly one of two
outcomes holds: either the queue's next pending reservation (the oldest
`pending` one for the loan's book, as chosen by `GetNextReservation`)
has become `ready` and `availableCopies` is unchanged, or the book had
no pending reservation, no reservation changed, and `availableCopies`
increased by exactly 1 — never both, never neither (`Xor'`). -/
theorem returnLoan_exclusive (db db' : DB) (now : Int) (lid : String) (loan : Loan)
    (hl : Client.GetLoan db lid = .ok loan)
    (hs : Client.ReturnLoan db now lid = (db', none)) :
    Xor'
      (∃ r, Client.GetNextReservation db loan.bookId = .ok (some r) ∧
        r.status = ReservationStatus.pending ∧
        db'.reservationStatus r.id = some ReservationStatus.ready ∧
        db'.bookAvail loan.bookId = db.bookAvail loan.bookId)
      (Client.GetNextReservation db loan.bookId = .ok none ∧
        db'.reservations = db.reservations ∧
        db'.bookAvail loan.bookId = (db.bookAvail loan.bookId).map (fun v => v + 1)) := by
  have hlid : lid ≠ "" := (GetLoan_ok hl).1
  unfold Client.ReturnLoan Client.ReturnLoanW at hs
  simp only [hl, id_eq] at hs
  split at hs
  · exact absurd (congrArg Prod.snd hs) (by simp)
  · split at hs
    · rename_i db1 e heq1
      unfold Client.UpdateLoan at heq1
      rw [if_neg hlid] at heq1
      simp only [hl] at heq1
      exact absurd (congrArg Prod.snd heq1) (by simp)
    · rename_i db1 heq1
      have hf1 := UpdateLoan_frame db now lid (returnedLoan loan now)
      rw [heq1] at hf1
      simp only [] at hf1
      obtain ⟨hb1, hr1, hu1⟩ := hf1
      split at hs
      · rename_i e heq2
        exact absurd (congrArg Prod.snd hs) (by simp)
      · rename_i user heq2
        have huid : loan.userId ≠ "" := (GetUser_ok heq2).1
        split at hs
        · rename_i db2 e heq3
          split at heq3
          · unfold Client.UpdateUser at heq3
            rw [if_neg huid] at heq3
            simp only [heq2] at heq3
            exact absurd (congrArg Prod.snd heq3) (by simp)
          · exact absurd (congrArg Prod.snd heq3) (by simp)
        · rename_i db2 heq3
          have hf2 : db2.books = db1.books ∧ db2.reservations = db1.reservations := by
            split at heq3
            · have hf := UpdateUser_frame db1 now loan.userId
                { user with currentLoans := user.currentLoans - 1, updatedAt := now }
              rw [heq3] at hf
              simp only [] at hf
              exact ⟨hf.1, hf.2.1⟩
            · have h4 := congrArg Prod.fst heq3
              simp only [] at h4
              rw [← h4]
              exact ⟨rfl, rfl⟩
          obtain ⟨hb2, hr2⟩ := hf2
          have hresdb : db2.reservations = db.reservations := by rw [hr2, hr1]
          have hbooksdb : db2.books = db.books := by rw [hb2, hb1]
          split at hs
          · rename_i e heqN
            exact absurd (congrArg Prod.snd hs) (by simp)
          · rename_i next heqN
            rw [getNext_congr hresdb loan.bookId] at heqN
            cases next with
            | none =>
              simp only [Client.returnQueueBranch] at hs
              split at hs
              · rename_i e heqB
                exact absurd (congrArg Prod.snd hs) (by simp)
              · rename_i book heqB
                have hbid : loan.bookId ≠ "" := (GetBook_ok heqB).1
                have hfindb : db2.books.find? (fun x => decide (x.id = loan.bookId)) =
                    some book := (GetBook_ok heqB).2
                unfold Client.UpdateBook at hs
                rw [if_neg hbid] at hs
                simp only [heqB] at hs
                rw [Prod.mk.injEq] at hs
                obtain ⟨hdb', -⟩ := hs
                subst hdb'
                refine Or.inr ⟨⟨heqN, hresdb, ?_⟩, ?_⟩
                · unfold DB.bookAvail
                  dsimp only
                  rw [find?_map_replace (fun x => x.id) loan.bookId _ (by rfl) db2.books
                    (by rw [hfindb]; rfl)]
                  rw [← hbooksdb, hfindb]
                  rfl
                · rintro ⟨r, hA1, -⟩
                  rw [heqN] at hA1
                  exact absurd hA1 (by simp)
            | some r =>
              simp only [Client.returnQueueBranch] at hs
              split at hs
              · rename_i dbM heqM
                rw [Prod.mk.injEq] at hs
                obtain ⟨hdb', -⟩ := hs
                subst hdb'
                unfold Client.MarkReservationReady at heqM
                split at heqM
                · exact absurd (congrArg Prod.snd heqM) (by simp)
                · rename_i f heqG
                  split at heqM
                  · exact absurd (congrArg Prod.snd heqM) (by simp)
                  · rename_i hfp
                    have hrne : r.id ≠ "" := (GetReservation_ok heqG).1
                    have hfindr : db2.reservations.find? (fun x => decide (x.id = r.id)) =
                        some f := (GetReservation_ok heqG).2
                    unfold Client.UpdateReservation at heqM
                    rw [if_neg hrne] at heqM
                    simp only [heqG] at heqM
                    rw [Prod.mk.injEq] at heqM
                    obtain ⟨hdbM, -⟩ := heqM
                    subst hdbM
                    refine Or.inl ⟨⟨r, heqN, (getNext_ok_some heqN).2.1, ?_, ?_⟩, ?_⟩
                    · unfold DB.reservationStatus
                      dsimp only
                      rw [find?_map_replace (fun x => x.id) r.id _ (by rfl) db2.reservations
                        (by rw [hfindr]; rfl)]
                      rfl
                    · unfold DB.bookAvail
                      dsimp only
                      rw [hbooksdb]
                    · rintro ⟨hB1, -⟩
                      rw [heqN] at hB1
                      exact absurd hB1 (by simp)
              · rename_i dbM e heqM
                exact absurd (congrArg Prod.snd hs) (by simp)

/-- Loan for the C1 witness. -/
def lW1 : Loan :=
  { id := "L1", bookId := "B1", userId := "U1", bookTitle := "T", userName := "A B",
    pickupCode := "C1", status := LoanStatus.active, loanDate := 0, dueDate := 336,
    returnDate := none, fineAmount := 0, createdAt := 0, updatedAt := 0 }

/-- Store for the C1 witness: `B1` fully checked out to `U1`, one
pending reservation `R1` waiting for it. -/
def dbW1 : DB :=
  { books := [{ id := "B1", title := "T", totalCopies := 1, availableCopies := 0,
                createdAt := 0, updatedAt := 0 }],
    loans := [lW1],
    reservations := [{ id := "R1", bookId := "B1", userId := "U2", bookTitle := "T",
                       userName := "C D", status := ReservationStatus.pending,
                       reservationDate := 2, expiryDate := 74, notifiedDate := none,
                       createdAt := 2, updatedAt := 2 }],
    users := [{ id := "U1", firstName := "A", lastName := "B", isActive := true,
                maxLoans := 5, currentLoans := 1, createdAt := 0, updatedAt := 0 }] }

/-- C1 witness: the exclusivity theorem on a concrete successful return
that hands the copy to the waiting reservation. -/
theorem returnLoan_exclusive_witness :
    Xor'
      (∃ r, Client.GetNextReservation dbW1 lW1.bookId = .ok (some r) ∧
        r.status = ReservationStatus.pending ∧
        (Client.ReturnLoan dbW1 400 "L1").1.reservationStatus r.id =
          some ReservationStatus.ready ∧
        (Client.ReturnLoan dbW1 400 "L1").1.bookAvail lW1.bookId =
          dbW1.bookAvail lW1.bookId)
      (Client.GetNextReservation dbW1 lW1.bookId = .ok none ∧
        (Client.ReturnLoan dbW1 400 "L1").1.reservations = dbW1.reservations ∧
        (Client.ReturnLoan dbW1 400 "L1").1.bookAvail lW1.bookId =
          (dbW1.bookAvail lW1.bookId).map (fun v => v + 1)) :=
  returnLoan_exclusive dbW1 _ 400 "L1" lW1 (by rfl) (by rfl)

/-- Replacing records at one key leaves the key list unchanged. -/
theorem keys_map_replace {α : Type} (key : α → String) (id : String) (n : α)
    (hn : key n = id) (l : List α) :
    (l.map (fun x => if key x = id then n else x)).map key = l.map key := by
  rw [List.map_map]
  apply List.map_congr_left
  intro x _
  by_cases hx : key x = id
  · simp [hx, hn]
  · simp [hx]

/-- A successful `CancelReservation` only rewrites the reservations
collection, replacing the record(s) at the cancelled id. -/
theorem CancelReservation_ok_shape {db db1 : DB} {now : Int} {rid : String}
    (h : Client.CancelReservation db now rid = (db1, none)) :
    db1.books = db.books ∧ db1.loans = db.loans ∧ db1.users = db.users ∧
    ∃ n : Reservation, n.id = rid ∧
      db1.reservations = db.reservations.map (fun x => if x.id = rid then n else x) := by
  unfold Client.CancelReservation at h
  split at h
  · exact absurd (congrArg Prod.snd h) (by simp)
  · rename_i r heq
    split at h
    · exact absurd (congrArg Prod.snd h) (by simp)
    · unfold Client.UpdateReservation at h
      split at h
      · exact absurd (congrArg Prod.snd h) (by simp)
      · simp only [heq] at h
        rw [Prod.mk.injEq] at h
        obtain ⟨hdb1, -⟩ := h
        subst hdb1
        exact ⟨rfl, rfl, rfl, _, rfl, rfl⟩

/-- C3 amended: after a successful handler cancellation of an owned
reservation, *regardless of the cancelled reservation's prior status*
(any status other than `completed` — in particular also `pending`), the
handler reports success and exactly one of the release paths runs on the
post-cancel queue `db1`: the next pending reservation is marked `ready`
with `availableCopies` unchanged, or — with no pending reservation
left — `availableCopies` increases by 1.  The source branches on queue
state only, never on whether the cancelled reservation held a copy; the
counterexample `cancelReservation_pending_releases_copy` shows the
original claim's pending case is wrong. -/
theorem cancelReservation_unconditional_release
    (db db1 : DB) (now : Int) (uid rid : String) (r : Reservation) (bk : Book)
    (hr : Client.GetReservation db rid = .ok r)
    (hown : r.userId = uid)
    (hnc : r.status ≠ ReservationStatus.completed)
    (hcancel : Client.CancelReservation db now rid = (db1, none))
    (hbook : Client.GetBook db r.bookId = .ok bk)
    (hids : ∀ x ∈ db.reservations, x.id ≠ "")
    (hnd : (db.reservations.map (fun x => x.id)).Nodup) :
    (UserHandler.CancelReservation db now uid rid).2 =
      .ok "Rezerwacja została anulowana." ∧
    Xor'
      (∃ nr, Client.GetNextReservation db1 r.bookId = .ok (some nr) ∧
        nr.status = ReservationStatus.pending ∧
        (UserHandler.CancelReservation db now uid rid).1.reservationStatus nr.id =
          some ReservationStatus.ready ∧
        (UserHandler.CancelReservation db now uid rid).1.bookAvail r.bookId =
          db.bookAvail r.bookId)
      (Client.GetNextReservation db1 r.bookId = .ok none ∧
        (UserHandler.CancelReservation db now uid rid).1.bookAvail r.bookId =
          (db.bookAvail r.bookId).map (fun v => v + 1)) := by
  have hrid : rid ≠ "" := (GetReservation_ok hr).1
  have hbid : r.bookId ≠ "" := (GetBook_ok hbook).1
  have hfindb : db.books.find? (fun x => decide (x.id = r.bookId)) = some bk :=
    (GetBook_ok hbook).2
  obtain ⟨hbooks1, hloans1, husers1, n, hnid, hres1⟩ := CancelReservation_ok_shape hcancel
  have hrun : UserHandler.CancelReservation db now uid rid =
      (UserHandler.cancelQueueBranch db1 now r.bookId
        (UserHandler.nextOrNone db1 r.bookId), .ok "Rezerwacja została anulowana.") := by
    unfold UserHandler.CancelReservation UserHandler.CancelReservationW
    rw [if_neg hrid]
    simp only [hr]
    rw [if_neg (not_ne_iff.mpr hown)]
    simp only [hcancel, id_eq]
  rw [hrun]
  refine ⟨rfl, ?_⟩
  have hkeys : db1.reservations.map (fun x => x.id) = db.reservations.map (fun x => x.id) := by
    rw [hres1]
    exact keys_map_replace (fun x => x.id) rid n hnid db.reservations
  have hnd1 : (db1.reservations.map (fun x => x.id)).Nodup := by rw [hkeys]; exact hnd
  have hids1 : ∀ x ∈ db1.reservations, x.id ≠ "" := by
    intro x hx
    rw [hres1] at hx
    obtain ⟨y, hy, hxy⟩ := List.mem_map.mp hx
    by_cases hyid : y.id = rid
    · rw [if_pos hyid] at hxy
      rw [← hxy, hnid]
      exact hrid
    · rw [if_neg hyid] at hxy
      rw [← hxy]
      exact hids y hy
  have hnext : Client.GetNextReservation db1 r.bookId =
      .ok (pickOldest (db1.reservations.filter (fun x =>
        decide (x.bookId = r.bookId) && decide (x.status = ReservationStatus.pending)))) := by
    unfold Client.GetNextReservation
    rw [if_neg hbid]
  have hnn : UserHandler.nextOrNone db1 r.bookId =
      pickOldest (db1.reservations.filter (fun x =>
        decide (x.bookId = r.bookId) && decide (x.status = ReservationStatus.pending))) := by
    unfold UserHandler.nextOrNone
    simp only [hnext]
  cases hpick : pickOldest (db1.reservations.filter (fun x =>
      decide (x.bookId = r.bookId) && decide (x.status = ReservationStatus.pending))) with
  | none =>
    rw [hnn, hpick]
    have hgb1 : Client.GetBook db1 r.bookId = .ok bk := by
      unfold Client.GetBook at hbook ⊢
      rw [hbooks1]
      exact hbook
    refine Or.inr ⟨⟨by rw [hnext, hpick], ?_⟩, ?_⟩
    · simp only [UserHandler.cancelQueueBranch]
      simp only [hgb1]
      unfold Client.UpdateBook
      rw [if_neg hbid]
      simp only [hgb1]
      unfold DB.bookAvail
      dsimp only
      rw [find?_map_replace (fun x => x.id) r.bookId _ (by rfl) db1.books
        (by rw [hbooks1, hfindb]; rfl)]
      rw [hfindb]
      rfl
    · rintro ⟨nr, hA1, -⟩
      rw [hnext, hpick] at hA1
      exact absurd hA1 (by simp)
  | some nr =>
    rw [hnn, hpick]
    have hmemf := pickOldest_mem hpick
    have hmem1 : nr ∈ db1.reservations := (List.mem_filter.mp hmemf).1
    have hprops := (List.mem_filter.mp hmemf).2
    simp only [Bool.and_eq_true, decide_eq_true_eq] at hprops
    obtain ⟨hnrb, hnrp⟩ := hprops
    have hnrne : nr.id ≠ "" := hids1 nr hmem1
    have hfindnr : db1.reservations.find? (fun x => decide (x.id = nr.id)) = some nr :=
      find?_eq_of_mem_nodup (fun x => x.id) hmem1 hnd1
    have hgr1 : Client.GetReservation db1 nr.id = .ok nr := by
      unfold Client.GetReservation
      rw [if_neg hnrne, hfindnr]
    refine Or.inl ⟨⟨nr, by rw [hnext, hpick], hnrp, ?_, ?_⟩, ?_⟩
    · simp only [UserHandler.cancelQueueBranch]
      unfold Client.MarkReservationReady
      simp only [hgr1]
      rw [if_neg (not_ne_iff.mpr hnrp)]
      unfold Client.UpdateReservation
      rw [if_neg hnrne]
      simp only [hgr1]
      unfold DB.reservationStatus
      dsimp only
      rw [find?_map_replace (fun x => x.id) nr.id _ (by rfl) db1.reservations
        (by rw [hfindnr]; rfl)]
      rfl
    · simp only [UserHandler.cancelQueueBranch]
      unfold Client.MarkReservationReady
      simp only [hgr1]
      rw [if_neg (not_ne_iff.mpr hnrp)]
      unfold Client.UpdateReservation
      rw [if_neg hnrne]
      simp only [hgr1]
      unfold DB.bookAvail
      dsimp only
      rw [hbooks1]
    · rintro ⟨hB1, -⟩
      rw [hnext, hpick] at hB1
      exact absurd hB1 (by simp)

/-- The pending reservation cancelled in the C3 witness. -/
def rW3 : Reservation :=
  { id := "R1", bookId := "B1", userId := "U1", bookTitle := "T", userName := "A B",
    status := ReservationStatus.pending, reservationDate := 2, expiryDate := 170,
    notifiedDate := none, createdAt := 2, updatedAt := 2 }

/-- The book of the C3 witness store. -/
def bkW3 : Book :=
  { id := "B1", title := "T", totalCopies := 2, availableCopies := 1,
    createdAt := 0, updatedAt := 0 }

/-- Store for the C3 witness. -/
def dbW3 : DB :=
  { books := [bkW3], loans := [], reservations := [rW3],
    users := [{ id := "U1", firstName := "A", lastName := "B", isActive := true,
                maxLoans := 5, currentLoans := 0, createdAt := 0, updatedAt := 0 }] }

/-- C3 witness: the amended theorem applied to the concrete cancellation
of a pending reservation (the no-next-pending, increment path fires). -/
theorem cancelReservation_unconditional_release_witness :
    (UserHandler.CancelReservation dbW3 10 "U1" "R1").2 =
      .ok "Rezerwacja została anulowana." ∧
    Xor'
      (∃ nr, Client.GetNextReservation (Client.CancelReservation dbW3 10 "R1").1
          rW3.bookId = .ok (some nr) ∧
        nr.status = ReservationStatus.pending ∧
        (UserHandler.CancelReservation dbW3 10 "U1" "R1").1.reservationStatus nr.id =
          some ReservationStatus.ready ∧
        (UserHandler.CancelReservation dbW3 10 "U1" "R1").1.bookAvail rW3.bookId =
          dbW3.bookAvail rW3.bookId)
      (Client.GetNextReservation (Client.CancelReservation dbW3 10 "R1").1 rW3.bookId =
          .ok none ∧
        (UserHandler.CancelReservation dbW3 10 "U1" "R1").1.bookAvail rW3.bookId =
          (dbW3.bookAvail rW3.bookId).map (fun v => v + 1)) :=
  cancelReservation_unconditional_release dbW3 _ 10 "U1" "R1" rW3 bkW3
    (by rfl) (by rfl) (by decide) (by rfl) (by rfl) (by decide) (by decide)
